import Mathlib

/-!
Verification of the request orchestration and caching layer of the
Sentry-reports client (`src/sentry_client.py`), as a shallow embedding.
Pure Lean functions mirror the Python methods; network responses are
supplied by explicit oracle lists (one element per physical HTTP attempt);
the observable side effects of a call (HTTP attempts, sleeps, translator
invocations, cache flushes) are recorded in an event trace.  Wall-clock
time is a natural-number counter that advances exactly by the seconds
slept (requests themselves are modelled as instantaneous).
-/

namespace SentryReports

/-- Constant `SentryClient.NOT_AVAILABLE`, the sentinel string. -/
def NOT_AVAILABLE : String := "Não disponível"

/-- Constant `SentryClient.CACHE_EXPIRY` in seconds (one hour). -/
def CACHE_EXPIRY : Nat := 3600

/-- Constant `SentryClient.MAX_RETRIES` of `_make_request`. -/
def MAX_RETRIES : Nat := 3

/-- Instance attribute `summary_rate_limit` (requests per window). -/
def summaryRateLimit : Nat := 10

/-- Instance attribute `summary_rate_window` in seconds. -/
def summaryRateWindow : Nat := 60

/-- Instance attribute `_translation_rate_limit` (requests per minute). -/
def translationRateLimit : Nat := 50

/-- Observable side effects of the client, recorded in program order.
`translateCall` marks an invocation of `_translate_with_ai` (with its
argument); `translateReq` marks an actual POST to the translation API;
`httpAttempt` marks one physical request of `_make_request`;
`acquireTranslation` marks a run of `_check_translation_rate_limit`;
`summaryCall` marks an invocation of `get_issue_summary`;
`cacheSave` marks a `_save_summary_cache` flush. -/
inductive Event where
  | sleep (seconds : Nat)
  | httpAttempt (endpoint : String)
  | translateCall (text : String)
  | translateReq (text : String)
  | acquireTranslation
  | cacheSave
  | summaryCall (issueId : String)
  deriving DecidableEq, Repr

/-- The seconds slept in a trace, in order. -/
def sleepsOf (evs : List Event) : List Nat :=
  evs.filterMap (fun e => match e with | .sleep n => some n | _ => none)

/-- Total seconds slept in a trace. -/
def sleptTime (evs : List Event) : Nat :=
  (sleepsOf evs).sum

/-- Python `s.replace(star, empty)`: every star character is removed
(written over the character list so the kernel can evaluate it). -/
def stripStars (s : String) : String :=
  ⟨s.data.filter (fun c => c != '*')⟩

/-- Python `s.strip()`: leading and trailing whitespace removed. -/
def pyStrip (s : String) : String :=
  ⟨(((s.data.dropWhile Char.isWhitespace).reverse).dropWhile
      Char.isWhitespace).reverse⟩

/-- Python `s.lower()`. -/
def pyLower (s : String) : String :=
  ⟨s.data.map Char.toLower⟩

/-- Helper of `pyWords`: accumulates the current word reversed. -/
def wordsAux (cs : List Char) (acc : List Char) : List String :=
  match cs with
  | [] => if acc.isEmpty then [] else [⟨acc.reverse⟩]
  | c :: rest =>
    if c.isWhitespace then
      if acc.isEmpty then wordsAux rest []
      else ⟨acc.reverse⟩ :: wordsAux rest []
    else wordsAux rest (c :: acc)

/-- Python `s.split()` with no argument: split on whitespace runs,
dropping empty pieces. -/
def pyWords (s : String) : List String :=
  wordsAux s.data []

/-- Errors of the `requests` library as seen by `_make_request`: a network
failure, or an HTTP error status raised by `raise_for_status`. -/
inductive ReqError where
  | network
  | http (status : Nat)
  deriving DecidableEq, Repr

/-- One physical attempt of the upstream issue-tracking API: either the
connection fails, or a response with a status code and a parsed body
arrives.  An exhausted oracle behaves like a network failure. -/
inductive Attempt (α : Type) where
  | netError
  | resp (status : Nat) (body : α)
  deriving DecidableEq, Repr

/-- The error `raise_for_status` or the session raises for a failing attempt. -/
def toErr {α : Type} : Attempt α → ReqError
  | .netError => .network
  | .resp s _ => .http s

/-- Whether an attempt raises inside the `try` of `_make_request`
(network error, or `raise_for_status` on a status of at least 400). -/
def isFail {α : Type} : Attempt α → Bool
  | .netError => true
  | .resp s _ => decide (400 ≤ s)

/-- The trace of `_make_request` once the attempt oracle is exhausted,
meaning every remaining physical attempt is a network error: one attempt
plus one backoff sleep of `2 ^ i` per remaining retry
(`i` from `retryCount` up to `MAX_RETRIES`), then the final attempt whose
error propagates. -/
def exhaustEvents (endpoint : String) (retryCount : Nat) : List Event :=
  ((List.range (MAX_RETRIES - retryCount)).map
    (fun i => [Event.httpAttempt endpoint,
               Event.sleep (2 ^ (retryCount + i))])).flatten
    ++ [Event.httpAttempt endpoint]

/-- Shallow embedding of `SentryClient._make_request`.  One oracle element
is consumed per physical attempt; an exhausted oracle stands for a server
that fails every remaining attempt (closed form `exhaustEvents`).  A
network error or a status of at least 400 raises; with
`retry_count < MAX_RETRIES` the method sleeps `2 ^ retry_count` seconds
and recurses on the rest of the oracle, else the error propagates.  A
response that survives `raise_for_status` is returned. -/
def makeRequest {α : Type} (endpoint : String) (attempts : List (Attempt α))
    (retryCount : Nat) : Except ReqError (Nat × α) × List Event :=
  match attempts with
  | [] => (.error .network, exhaustEvents endpoint retryCount)
  | a :: rest =>
    match a with
    | .netError =>
        if retryCount < MAX_RETRIES then
          let r := makeRequest endpoint rest (retryCount + 1)
          (r.1, Event.httpAttempt endpoint :: Event.sleep (2 ^ retryCount) ::
            r.2)
        else
          (.error .network, [Event.httpAttempt endpoint])
    | .resp s b =>
        if 400 ≤ s then
          if retryCount < MAX_RETRIES then
            let r := makeRequest endpoint rest (retryCount + 1)
            (r.1, Event.httpAttempt endpoint :: Event.sleep (2 ^ retryCount)
              :: r.2)
          else
            (.error (.http s), [Event.httpAttempt endpoint])
        else
          (.ok (s, b), [Event.httpAttempt endpoint])

/-- One entry of the persistent summary cache:
`{whats_wrong, possivel_causa, timestamp}`. -/
structure CacheEntry where
  whats_wrong : String
  possivel_causa : String
  timestamp : Nat
  deriving DecidableEq, Repr

/-- Shallow embedding of `SentryClient._load_summary_cache`: a missing file
yields the empty cache, otherwise the parsed entries are filtered to those
with `now - timestamp < CACHE_EXPIRY` (a parse or read failure also yields
the empty cache and is subsumed by `fileExists = false`). -/
def loadSummaryCache (fileExists : Bool) (now : Nat)
    (fileData : List (String × CacheEntry)) : List (String × CacheEntry) :=
  if fileExists then
    fileData.filter (fun p => decide (now - p.2.timestamp < CACHE_EXPIRY))
  else
    []

/-- Shallow embedding of `SentryClient._check_rate_limit` on the mutable
triple `(now, summary_requests_count, last_summary_request)`.  Returns the
updated triple and the trace (at most one sleep). -/
def checkRateLimit (now count last : Nat) : (Nat × Nat × Nat) × List Event :=
  let timeDiff := now - last
  let count1 := if summaryRateWindow ≤ timeDiff then 0 else count
  let last1 := if summaryRateWindow ≤ timeDiff then now else last
  if summaryRateLimit ≤ count1 then
    let wait := summaryRateWindow - timeDiff
    if 0 < wait then
      ((now + wait, 0, now + wait), [Event.sleep wait])
    else
      ((now, count1, last1), [])
  else
    ((now, count1, last1), [])

/-- Shallow embedding of `SentryClient._check_translation_rate_limit` on the
triple `(now, _translation_count, _last_translation)`.  The
`acquireTranslation` event marks that the limiter ran.  Note that, in the
source, no method ever calls this function and nothing ever increments
`_translation_count`. -/
def checkTranslationRateLimit (now count last : Nat) :
    (Nat × Nat × Nat) × List Event :=
  let timeDiff := now - last
  let count1 := if 60 ≤ timeDiff then 0 else count
  let last1 := if 60 ≤ timeDiff then now else last
  if translationRateLimit ≤ count1 then
    let wait := 60 - timeDiff
    if 0 < wait then
      ((now + wait, 0, now + wait), [Event.acquireTranslation, Event.sleep wait])
    else
      ((now, count1, last1), [Event.acquireTranslation])
  else
    ((now, count1, last1), [Event.acquireTranslation])

/-- One physical attempt of the Together AI translation endpoint: an
exception (connection, timeout, JSON decoding), or a response with a status
and the optional `choices` texts; `none` models a JSON body without the
`choices` key.  An exhausted oracle behaves like an exception. -/
inductive TAttempt where
  | exn
  | resp (status : Nat) (choices : Option (List String))
  deriving DecidableEq, Repr

/-- Shallow embedding of `SentryClient._translate_with_ai`.  Empty or
sentinel input returns the sentinel without any request.  Otherwise one
POST is issued: on 200 with a nonempty `choices` the first text is
stripped and returned (an empty or missing `choices` falls back to the
input text); on 429 the method sleeps 10 seconds and recursively retries
on the rest of the oracle; any other status or exception returns the
input text. -/
def translateWithAi (text : String) (oracle : List TAttempt) :
    String × List Event :=
  if text = "" ∨ text = NOT_AVAILABLE then
    (NOT_AVAILABLE, [Event.translateCall text])
  else
    match oracle with
    | [] => (text, [Event.translateCall text, Event.translateReq text])
    | .exn :: _ => (text, [Event.translateCall text, Event.translateReq text])
    | .resp s choices :: rest =>
      if s = 200 then
        match choices with
        | some (c :: _) =>
            (pyStrip c, [Event.translateCall text, Event.translateReq text])
        | some [] => (text, [Event.translateCall text, Event.translateReq text])
        | none => (text, [Event.translateCall text, Event.translateReq text])
      else if s = 429 then
        let r := translateWithAi text rest
        (r.1, Event.translateCall text :: Event.translateReq text ::
              Event.sleep 10 :: r.2)
      else
        (text, [Event.translateCall text, Event.translateReq text])

/-- Parsed JSON body of the summarize endpoint; `summary.get` with default
empty string makes a missing key observationally equal to an empty field. -/
structure SummaryBody where
  whatsWrong : String
  possibleCause : String
  deriving DecidableEq, Repr

/-- Mutable client state touched by the summary enricher: the clock, the
in-memory summary cache, `summary_requests_count` and
`last_summary_request`. -/
structure SState where
  now : Nat
  cache : List (String × CacheEntry)
  summaryCount : Nat
  lastSummary : Nat
  deriving DecidableEq, Repr

/-- Python `s or NOT_AVAILABLE` for a string: an empty string is falsy. -/
def orNA (s : String) : String :=
  if s = "" then NOT_AVAILABLE else s

/-- Python dict assignment `cache[k] = v` on an association list. -/
def dictInsert (k : String) (v : CacheEntry)
    (m : List (String × CacheEntry)) : List (String × CacheEntry) :=
  (k, v) :: m.filter (fun p => p.1 != k)

/-- The per-issue summarize endpoint path. -/
def summarizeEndpoint (issueId : String) : String :=
  "/organizations/ORG/issues/" ++ issueId ++ "/summarize/"

/-- The cache test of `get_issue_summary`: Python
`cache_entry and (time.time() - timestamp < CACHE_EXPIRY)`; a present,
unexpired entry is a hit, anything else misses. -/
def cacheHit (st : SState) (issueId : String) : Option CacheEntry :=
  match st.cache.lookup issueId with
  | some e => if st.now - e.timestamp < CACHE_EXPIRY then some e else none
  | none => none

/-- Shallow embedding of `SentryClient.get_issue_summary`.  `post` is the
oracle for the summarize POST (one element per physical attempt of
`_make_request`), `trW` and `trP` the oracles for the two translation
calls.  `fuel` bounds the recursive self-call of the
`status_code == 429` branch; since `_make_request` never returns a status
of at least 400, that branch is unreachable and any positive fuel gives
the same result.  Returns the `(whats_wrong, possivel_causa)` pair, the
updated state and the trace. -/
def getIssueSummary (fuel : Nat) (issueId : String) (st : SState)
    (post : List (Attempt SummaryBody)) (trW trP : List TAttempt) :
    (String × String) × SState × List Event :=
  match fuel with
  | 0 => ((NOT_AVAILABLE, NOT_AVAILABLE), st, [])
  | fuel + 1 =>
    match cacheHit st issueId with
    | some e =>
        ((e.whats_wrong, e.possivel_causa), st, [Event.summaryCall issueId])
    | none =>
      let rl := checkRateLimit st.now st.summaryCount st.lastSummary
      let now1 := rl.1.1
      let count1 := rl.1.2.1
      let last1 := rl.1.2.2
      let mr := makeRequest (summarizeEndpoint issueId) post 0
      let now2 := now1 + sleptTime mr.2
      match mr.1 with
      | .error _ =>
          ((NOT_AVAILABLE, NOT_AVAILABLE),
           { now := now2, cache := st.cache, summaryCount := count1,
             lastSummary := last1 },
           Event.summaryCall issueId :: rl.2 ++ mr.2)
      | .ok (status, body) =>
        let count2 := count1 + 1
        if status = 429 then
          let now3 := now2 + summaryRateWindow
          let st1 : SState :=
            { now := now3, cache := st.cache, summaryCount := 0,
              lastSummary := now3 }
          let r := getIssueSummary fuel issueId st1 post trW trP
          (r.1, r.2.1,
           Event.summaryCall issueId :: rl.2 ++ mr.2 ++
             [Event.sleep summaryRateWindow] ++ r.2.2)
        else if status = 200 then
          let ww0 := orNA (stripStars body.whatsWrong)
          let pc0 := orNA (stripStars body.possibleCause)
          let tw :=
            if ww0 ≠ NOT_AVAILABLE then translateWithAi ww0 trW else (ww0, [])
          let tp :=
            if pc0 ≠ NOT_AVAILABLE then translateWithAi pc0 trP else (pc0, [])
          let now3 := now2 + sleptTime tw.2 + sleptTime tp.2
          let entry : CacheEntry :=
            { whats_wrong := tw.1, possivel_causa := tp.1, timestamp := now3 }
          ((tw.1, tp.1),
           { now := now3, cache := dictInsert issueId entry st.cache,
             summaryCount := count2, lastSummary := last1 },
           Event.summaryCall issueId :: rl.2 ++ mr.2 ++ tw.2 ++ tp.2 ++
             [Event.cacheSave])
        else
          ((NOT_AVAILABLE, NOT_AVAILABLE),
           { now := now2, cache := st.cache, summaryCount := count2,
             lastSummary := last1 },
           Event.summaryCall issueId :: rl.2 ++ mr.2)

/-- One raw issue record as read from the upstream API.  The fields are the
keys `create_issues_dataframe` and `_get_all_issues_with_priorities` read;
the Python `issue.get(key, default)` defaults are represented by the field
value itself.  `priority` and `categoryError` are the server-assigned
attributes used to model the server-side filtering of the four report
queries. -/
structure Issue where
  id : String
  title : String
  count : Nat
  userCount : Nat
  environment : String
  status : String
  level : String
  firstSeen : String
  lastSeen : String
  shortId : String
  culprit : String
  permalink : String
  priority : String
  categoryError : Bool
  deriving DecidableEq, Repr

/-- One row of the report dataframe, field for field the dict built inside
`create_issues_dataframe` (`report_date` is the clock value at build time). -/
structure Row where
  report_date : Nat
  title : String
  count : Nat
  users_affected : Nat
  environment : String
  status : String
  level : String
  first_seen : String
  last_seen : String
  short_id : String
  culprit : String
  permalink : String
  o_que_aconteceu : String
  possivel_causa : String
  deriving DecidableEq, Repr

/-- The fixed word set of `_is_portuguese`. -/
def portugueseWords : List String :=
  ["erro", "falha", "durante", "com", "foi", "está", "não", "na", "da",
   "do", "em", "para"]

/-- Shallow embedding of `SentryClient._is_portuguese`: false on the empty
string, else at least two distinct lowercased whitespace-separated words
of the text belong to the fixed Portuguese word set. -/
def isPortuguese (text : String) : Bool :=
  if text = "" then
    false
  else
    let words := (pyWords (pyLower text)).dedup
    decide (2 ≤ (words.filter (fun w => portugueseWords.contains w)).length)

/-- The network oracles one issue may consume during enrichment: the
summarize POST attempts, the two translation oracles inside
`get_issue_summary`, and the two oracles of the forced translation in
`create_issues_dataframe`. -/
structure IssueOracle where
  post : List (Attempt SummaryBody)
  trW : List TAttempt
  trP : List TAttempt
  forcedW : List TAttempt
  forcedP : List TAttempt

/-- The per-issue body of the batch loop of `create_issues_dataframe`:
fetch (or read from cache) the summary pair, force a translation of each
non-sentinel field the heuristic judges not already Portuguese, and build
the row. -/
def processIssue (fuel : Nat) (issue : Issue) (st : SState)
    (oracles : String → IssueOracle) : Row × SState × List Event :=
  let o := oracles issue.id
  let gs := getIssueSummary fuel issue.id st o.post o.trW o.trP
  let wh := gs.1.1
  let pc := gs.1.2
  let st1 := gs.2.1
  let tw :=
    if wh ≠ NOT_AVAILABLE ∧ ¬ isPortuguese wh then
      translateWithAi wh o.forcedW
    else (wh, [])
  let tp :=
    if pc ≠ NOT_AVAILABLE ∧ ¬ isPortuguese pc then
      translateWithAi pc o.forcedP
    else (pc, [])
  let now2 := st1.now + sleptTime tw.2 + sleptTime tp.2
  let row : Row :=
    { report_date := now2, title := issue.title, count := issue.count,
      users_affected := issue.userCount, environment := issue.environment,
      status := issue.status, level := issue.level,
      first_seen := issue.firstSeen, last_seen := issue.lastSeen,
      short_id := issue.shortId, culprit := issue.culprit,
      permalink := issue.permalink, o_que_aconteceu := tw.1,
      possivel_causa := tp.1 }
  (row, { st1 with now := now2 }, gs.2.2 ++ tw.2 ++ tp.2)

/-- Sequential processing of the issues of one batch, in list order, as in
the `for issue in batch` loop of the source. -/
def processSeq (fuel : Nat) (batch : List Issue) (st : SState)
    (oracles : String → IssueOracle) : List Row × SState × List Event :=
  match batch with
  | [] => ([], st, [])
  | issue :: rest =>
    let p := processIssue fuel issue st oracles
    let r := processSeq fuel rest p.2.1 oracles
    (p.1 :: r.1, r.2.1, p.2.2 ++ r.2.2)

/-- The batch loop of `create_issues_dataframe`: slices of five issues are
processed in order; after a batch, `time.sleep(2)` runs exactly when
further issues remain (`i + batch_size < len(issues)`).  `tick` is a
structural bound on the number of batches; the wrapper `batchesGo` always
supplies enough. -/
def batchesGoAux (fuel tick : Nat) (issues : List Issue) (st : SState)
    (oracles : String → IssueOracle) : List Row × SState × List Event :=
  match tick, issues with
  | _, [] => ([], st, [])
  | 0, _ :: _ => ([], st, [])
  | t + 1, issue :: more =>
    let batch := issue :: more.take 4
    let rest := more.drop 4
    let b := processSeq fuel batch st oracles
    match rest with
    | [] => b
    | _ :: _ =>
      let st2 : SState := { b.2.1 with now := b.2.1.now + 2 }
      let r := batchesGoAux fuel t rest st2 oracles
      (b.1 ++ r.1, r.2.1, b.2.2 ++ [Event.sleep 2] ++ r.2.2)

/-- The batch loop at its natural bound. -/
def batchesGo (fuel : Nat) (issues : List Issue) (st : SState)
    (oracles : String → IssueOracle) : List Row × SState × List Event :=
  batchesGoAux fuel issues.length issues st oracles

/-- The sort key of `df.sort_values([count, users_affected],
ascending=[False, False])`: occurrence count descending, ties broken by
affected users descending. -/
def rowKeyGE (a b : Row) : Prop :=
  b.count < a.count ∨ (a.count = b.count ∧ b.users_affected ≤ a.users_affected)

instance : DecidableRel rowKeyGE := fun a b => by
  unfold rowKeyGE
  infer_instance

instance : IsTotal Row rowKeyGE :=
  ⟨by intro a b; unfold rowKeyGE; omega⟩

instance : IsTrans Row rowKeyGE :=
  ⟨by intro a b c hab hbc; unfold rowKeyGE at *; omega⟩

/-- Shallow embedding of `SentryClient.create_issues_dataframe`: an empty
issue list yields the empty dataframe, otherwise the rows produced by the
batch loop are sorted by occurrence count descending with ties broken by
affected users descending (`df.sort_values` modelled by a comparison sort
over that key). -/
def createIssuesDataframe (fuel : Nat) (issues : List Issue) (st : SState)
    (oracles : String → IssueOracle) : List Row × SState × List Event :=
  match issues with
  | [] => ([], st, [])
  | _ :: _ =>
    let r := batchesGo fuel issues st oracles
    (List.insertionSort rowKeyGE r.1, r.2.1, r.2.2)

/-- Shallow embedding of `SentryClient.get_issues`: one transport call
whose parsed JSON body is the issue list the server returns for the
query. -/
def getIssues (attempts : List (Attempt (List Issue))) :
    Except ReqError (List Issue) × List Event :=
  let r := makeRequest "/organizations/ORG/issues/" attempts 0
  (r.1.map (fun p => p.2), r.2)

/-- The four sheets returned by `generate_multi_sheet_report`. -/
structure Report where
  errosMedAlta : List Row
  altaPrioridade : List Row
  baixaPrioridade : List Row
  naoErros : List Row
  deriving DecidableEq, Repr

/-- Shallow embedding of `SentryClient.generate_multi_sheet_report`: four
sequential `get_issues` queries (medium/high errors, high priority, low
priority, medium/high non-errors), each converted through
`create_issues_dataframe`; a transport failure propagates. -/
def generateMultiSheetReport (fuel : Nat) (st : SState)
    (qErr qHigh qLow qOther : List (Attempt (List Issue)))
    (oracles : String → IssueOracle) :
    Except ReqError Report × SState × List Event :=
  let g1 := getIssues qErr
  match g1.1 with
  | .error e => (.error e, { st with now := st.now + sleptTime g1.2 }, g1.2)
  | .ok issues1 =>
    let d1 := createIssuesDataframe fuel issues1
      { st with now := st.now + sleptTime g1.2 } oracles
    let g2 := getIssues qHigh
    match g2.1 with
    | .error e =>
        (.error e, { d1.2.1 with now := d1.2.1.now + sleptTime g2.2 },
         g1.2 ++ d1.2.2 ++ g2.2)
    | .ok issues2 =>
      let d2 := createIssuesDataframe fuel issues2
        { d1.2.1 with now := d1.2.1.now + sleptTime g2.2 } oracles
      let g3 := getIssues qLow
      match g3.1 with
      | .error e =>
          (.error e, { d2.2.1 with now := d2.2.1.now + sleptTime g3.2 },
           g1.2 ++ d1.2.2 ++ g2.2 ++ d2.2.2 ++ g3.2)
      | .ok issues3 =>
        let d3 := createIssuesDataframe fuel issues3
          { d2.2.1 with now := d2.2.1.now + sleptTime g3.2 } oracles
        let g4 := getIssues qOther
        match g4.1 with
        | .error e =>
            (.error e, { d3.2.1 with now := d3.2.1.now + sleptTime g4.2 },
             g1.2 ++ d1.2.2 ++ g2.2 ++ d2.2.2 ++ g3.2 ++ d3.2.2 ++ g4.2)
        | .ok issues4 =>
          let d4 := createIssuesDataframe fuel issues4
            { d3.2.1 with now := d3.2.1.now + sleptTime g4.2 } oracles
          (.ok { errosMedAlta := d1.1, altaPrioridade := d2.1,
                 baixaPrioridade := d3.1, naoErros := d4.1 },
           d4.2.1,
           g1.2 ++ d1.2.2 ++ g2.2 ++ d2.2.2 ++ g3.2 ++ d3.2.2 ++ g4.2 ++ d4.2.2)

/-- Python dict assignment for the priority cache. -/
def prioInsert (k v : String) (m : List (String × String)) :
    List (String × String) :=
  (k, v) :: m.filter (fun p => p.1 != k)

/-- Shallow embedding of `SentryClient._get_all_issues_with_priorities`:
one bulk query; on success every issue with a nonempty title stores its
lowercased `priority` (default low) in the priority cache and the method
returns true; on transport failure the cache is unchanged and it returns
false. -/
def getAllIssuesWithPriorities (attempts : List (Attempt (List Issue)))
    (prio : List (String × String)) :
    Bool × List (String × String) × List Event :=
  let r := makeRequest "/organizations/ORG/issues/" attempts 0
  match r.1 with
  | .error _ => (false, prio, r.2)
  | .ok p =>
    let prio2 := p.2.foldl
      (fun acc issue =>
        if issue.title ≠ "" then
          prioInsert issue.title (pyLower issue.priority) acc
        else acc)
      prio
    (true, prio2, r.2)

/-- Shallow embedding of `SentryClient._get_issue_priority`: the cached
priority of a title, defaulting to low. -/
def getIssuePriority (prio : List (String × String)) (title : String) :
    String :=
  (prio.lookup title).getD "low"

/-- The texts of the translation POST requests of a trace, in order. -/
def reqsOf (evs : List Event) : List String :=
  evs.filterMap (fun e => match e with | .translateReq t => some t | _ => none)

/-- The arguments of the `_translate_with_ai` invocations of a trace. -/
def callsOf (evs : List Event) : List String :=
  evs.filterMap (fun e => match e with | .translateCall t => some t | _ => none)

/-- How many times `_check_translation_rate_limit` ran in a trace. -/
def countAcquires (evs : List Event) : Nat :=
  (evs.filter (fun e => e == Event.acquireTranslation)).length

/-- Whether a translation attempt is a 429 response. -/
def is429 : TAttempt → Bool
  | .exn => false
  | .resp s _ => decide (s = 429)

/-- The value `_translate_with_ai` computes from one non-429 attempt: a 200
response with a nonempty `choices` yields the stripped first text, anything
else yields the input text unchanged. -/
def tOutcome (text : String) : TAttempt → String
  | .exn => text
  | .resp s choices =>
    if s = 200 then
      match choices with
      | some (c :: _) => pyStrip c
      | _ => text
    else text

/-- A translation oracle answering 429, 429, then 200. -/
def c6oracle : List TAttempt :=
  [TAttempt.resp 429 none, TAttempt.resp 429 none,
   TAttempt.resp 200 (some ["Olá"])]

/-- An empty initial client state at clock 1000. -/
def st0 : SState :=
  { now := 1000, cache := [], summaryCount := 0, lastSummary := 1000 }

/-- A summarize oracle answering 429 on the first physical attempt and 200
on the second. -/
def c1post : List (Attempt SummaryBody) :=
  [Attempt.resp 429 ⟨"", ""⟩,
   Attempt.resp 200 ⟨"What happened", "Root cause"⟩]

/-- A translation oracle whose single attempt raises an exception. -/
def exnOracle : List TAttempt := [TAttempt.exn]

/-- A translation oracle answering 200 immediately. -/
def okTranslate : List TAttempt := [TAttempt.resp 200 (some ["Olá mundo"])]

/-- The combined trace of 51 consecutive `_translate_with_ai` calls, each
answered 200 immediately: no sleep separates them, so all fall in one
rolling sixty-second window. -/
def burstEvents : List Event :=
  (List.replicate 51 (translateWithAi "Hello world" okTranslate).2).flatten

/-- A concrete client state holding one fresh cache entry for issue 77. -/
def stHit : SState :=
  { now := 5000, cache := [("77", ⟨"algo", "causa", 4000⟩)],
    summaryCount := 0, lastSummary := 5000 }

/-- A concrete summarize body. -/
def body0 : SummaryBody := ⟨"w", "c"⟩

/-- An oracle bundle with every oracle empty: every fetch fails after its
retries and every translation attempt raises. -/
def emptyOracle : IssueOracle := ⟨[], [], [], [], []⟩

/-- A minimal issue record with the given id, title, counts, priority and
error-category flag. -/
def mkIssue (ident title : String) (count userCount : Nat)
    (priority : String) (categoryError : Bool) : Issue :=
  { id := ident, title := title, count := count, userCount := userCount,
    environment := "production", status := "unresolved", level := "error",
    firstSeen := "2026-01-01", lastSeen := "2026-01-02", shortId := "S",
    culprit := "c", permalink := "p", priority := priority,
    categoryError := categoryError }

/-- Six issues for the batch-structure scenario. -/
def issues6 : List Issue :=
  [mkIssue "1" "t1" 1 1 "low" true, mkIssue "2" "t2" 2 1 "low" true,
   mkIssue "3" "t3" 3 1 "low" true, mkIssue "4" "t4" 4 1 "low" true,
   mkIssue "5" "t5" 5 1 "low" true, mkIssue "6" "t6" 6 1 "low" true]

/-- A state whose cache holds a fresh sentinel entry for each of the six
issues, so every enrichment is answered from cache with no other event. -/
def st9 : SState :=
  { now := 7000,
    cache := [("1", ⟨NOT_AVAILABLE, NOT_AVAILABLE, 7000⟩),
              ("2", ⟨NOT_AVAILABLE, NOT_AVAILABLE, 7000⟩),
              ("3", ⟨NOT_AVAILABLE, NOT_AVAILABLE, 7000⟩),
              ("4", ⟨NOT_AVAILABLE, NOT_AVAILABLE, 7000⟩),
              ("5", ⟨NOT_AVAILABLE, NOT_AVAILABLE, 7000⟩),
              ("6", ⟨NOT_AVAILABLE, NOT_AVAILABLE, 7000⟩)],
    summaryCount := 0, lastSummary := 7000 }

/-- Issue titled A, server priority high, ten occurrences, three users. -/
def issueA : Issue := mkIssue "1" "A" 10 3 "high" true

/-- Issue titled B, server priority low, five occurrences, one user. -/
def issueB : Issue := mkIssue "2" "B" 5 1 "low" false

/-- The report run of the two-issue scenario: the server answers the
high-priority query with issue A, the low-priority query with issue B,
and the two remaining queries with nothing — consistently with the
priorities it reports in the bulk query that fills the priority cache. -/
def c8run : Except ReqError Report :=
  (generateMultiSheetReport 1 st0 [Attempt.resp 200 []]
    [Attempt.resp 200 [issueA]] [Attempt.resp 200 [issueB]]
    [Attempt.resp 200 []] (fun _ => emptyOracle)).1

/-- The titles of one sheet of a report result. -/
def sheetTitles (r : Except ReqError Report) (sheet : Report → List Row) :
    List String :=
  match r with
  | .error _ => []
  | .ok rep => (sheet rep).map Row.title

/-- All four sheets of a report result sorted by occurrence count
descending with ties broken by affected users descending; an errored run
is vacuously sorted. -/
def reportSorted : Except ReqError Report → Prop
  | .error _ => True
  | .ok rep =>
    List.Sorted rowKeyGE rep.errosMedAlta ∧
    List.Sorted rowKeyGE rep.altaPrioridade ∧
    List.Sorted rowKeyGE rep.baixaPrioridade ∧
    List.Sorted rowKeyGE rep.naoErros

/-- Any response `_make_request` actually returns survived
`raise_for_status`, so its status is below 400; in particular no caller of
`_make_request` can ever observe a 429 response object. -/
theorem makeRequest_ok_status_lt {α : Type} (endpoint : String)
    (retryCount : Nat) (attempts : List (Attempt α)) (s : Nat) (b : α)
    (h : (makeRequest endpoint attempts retryCount).1 = Except.ok (s, b)) :
    s < 400 := by
  induction attempts generalizing retryCount with
  | nil => simp [makeRequest] at h
  | cons a rest ih =>
    rcases a with _ | ⟨s0, b0⟩
    · by_cases hrc : retryCount < MAX_RETRIES <;>
        simp [makeRequest, hrc] at h
      exact ih (retryCount + 1) h
    · by_cases h400 : 400 ≤ s0
      · by_cases hrc : retryCount < MAX_RETRIES <;>
          simp [makeRequest, h400, hrc] at h
        exact ih (retryCount + 1) h
      · simp [makeRequest, h400] at h
        obtain ⟨h1, h2⟩ := h
        omega

/-- Every run of `_make_request` performs at least one physical attempt:
the trace contains an `httpAttempt` event for its endpoint. -/
theorem makeRequest_attempt_mem {α : Type} (endpoint : String)
    (attempts : List (Attempt α)) (retryCount : Nat) :
    Event.httpAttempt endpoint ∈
      (makeRequest endpoint attempts retryCount).2 := by
  match attempts with
  | [] => simp [makeRequest, exhaustEvents]
  | Attempt.netError :: rest =>
    by_cases hrc : retryCount < MAX_RETRIES <;> simp [makeRequest, hrc]
  | Attempt.resp s b :: rest =>
    by_cases h400 : 400 ≤ s <;> by_cases hrc : retryCount < MAX_RETRIES <;>
      simp [makeRequest, h400, hrc]

/-- Claim C3: for every issue id with a cache entry whose timestamp is
within the expiry duration, `get_issue_summary` returns the cached
`(whats_wrong, possivel_causa)` pair, leaves the state unchanged, and its
trace is the bare invocation marker: no HTTP attempt, no translation
request, no sleep. -/
theorem claim3_cache_hit (fuel : Nat) (issueId : String) (st : SState)
    (post : List (Attempt SummaryBody)) (trW trP : List TAttempt)
    (e : CacheEntry) (hlook : st.cache.lookup issueId = some e)
    (hfresh : st.now - e.timestamp < CACHE_EXPIRY) :
    getIssueSummary (fuel + 1) issueId st post trW trP =
      ((e.whats_wrong, e.possivel_causa), st, [Event.summaryCall issueId]) := by
  simp [getIssueSummary, cacheHit, hlook, hfresh]

/-- Witness for claim C3 at a concrete state. -/
theorem claim3_cache_hit_witness :
    getIssueSummary 1 "77" stHit [] [] [] =
      (("algo", "causa"), stHit, [Event.summaryCall "77"]) :=
  claim3_cache_hit 0 "77" stHit [] [] [] ⟨"algo", "causa", 4000⟩ (by decide)
    (by decide)

/-- Unfolding step of `_make_request` on a failing attempt below the retry
cap: the attempt raises, the method sleeps `2 ^ retryCount` seconds and
recurses on the remaining oracle. -/
theorem makeRequest_fail_step {α : Type} (endpoint : String)
    (a : Attempt α) (rest : List (Attempt α)) (rc : Nat)
    (ha : isFail a = true) (hrc : rc < MAX_RETRIES) :
    makeRequest endpoint (a :: rest) rc =
      ((makeRequest endpoint rest (rc + 1)).1,
       Event.httpAttempt endpoint :: Event.sleep (2 ^ rc) ::
         (makeRequest endpoint rest (rc + 1)).2) := by
  rcases a with _ | ⟨s0, b0⟩
  · simp [makeRequest, hrc]
  · simp [isFail] at ha
    simp [makeRequest, ha, hrc]

/-- Unfolding step of `_make_request` on a failing attempt at the retry
cap: the error of that attempt propagates unmodified. -/
theorem makeRequest_fail_last {α : Type} (endpoint : String)
    (a : Attempt α) (rest : List (Attempt α)) (ha : isFail a = true) :
    makeRequest endpoint (a :: rest) MAX_RETRIES =
      (Except.error (toErr a), [Event.httpAttempt endpoint]) := by
  rcases a with _ | ⟨s0, b0⟩
  · simp [makeRequest, toErr]
  · simp [isFail] at ha
    simp [makeRequest, ha, toErr]

/-- Generalized retry unrolling: after `fails.length` failing attempts
starting at `retry_count = rc`, a successful response is returned and the
sleeps are `2 ^ (rc + i)` for `i` below `fails.length`. -/
theorem makeRequest_fails_then_ok {α : Type} (endpoint : String) :
    ∀ (fails : List (Attempt α)) (rc : Nat) (s : Nat) (b : α)
      (rest : List (Attempt α)),
      fails.length + rc ≤ MAX_RETRIES → (∀ a ∈ fails, isFail a = true) →
      s < 400 →
      (makeRequest endpoint (fails ++ Attempt.resp s b :: rest) rc).1 =
        Except.ok (s, b) ∧
      sleepsOf (makeRequest endpoint (fails ++ Attempt.resp s b :: rest) rc).2
        = (List.range fails.length).map (fun i => 2 ^ (rc + i)) := by
  intro fails
  induction fails with
  | nil =>
    intro rc s b rest hlen hall hs
    have hs400 : ¬ 400 ≤ s := by omega
    simp [makeRequest, hs400, sleepsOf]
  | cons a fails ih =>
    intro rc s b rest hlen hall hs
    have ha : isFail a = true := hall a (by simp)
    have hrc : rc < MAX_RETRIES := by
      simp at hlen
      omega
    rw [List.cons_append, makeRequest_fail_step endpoint a _ rc ha hrc]
    have step := ih (rc + 1) s b rest (by simp at hlen ⊢; omega)
      (fun x hx => hall x (by simp [hx])) hs
    refine ⟨step.1, ?_⟩
    simp only [sleepsOf, List.filterMap_cons] at step ⊢
    rw [step.2]
    simp only [List.length_cons, List.range_succ_eq_map, List.map_cons,
      List.map_map]
    congr 1
    apply List.map_congr_left
    intro i _
    simp only [Function.comp_apply]
    congr 1
    omega

/-- Claim C5: a transport call that fails transiently exactly `k` times
with `k < MAX_RETRIES` and then succeeds returns the successful response
having slept exactly `2 ^ i` seconds for each `i` below `k`; and a call
whose initial attempt and all `MAX_RETRIES` retries fail propagates the
error of the final attempt unmodified (after sleeps of 1, 2 and 4
seconds). -/
theorem claim5_retry :
    (∀ (endpoint : String) (k : Nat) (fails : List (Attempt SummaryBody))
       (s : Nat) (b : SummaryBody) (rest : List (Attempt SummaryBody)),
       k < MAX_RETRIES → fails.length = k →
       (∀ a ∈ fails, isFail a = true) → s < 400 →
       (makeRequest endpoint (fails ++ Attempt.resp s b :: rest) 0).1 =
         Except.ok (s, b) ∧
       sleepsOf
           (makeRequest endpoint (fails ++ Attempt.resp s b :: rest) 0).2 =
         (List.range k).map (fun i => 2 ^ i)) ∧
    (∀ (endpoint : String) (a0 a1 a2 a3 : Attempt SummaryBody)
       (rest : List (Attempt SummaryBody)),
       isFail a0 = true → isFail a1 = true → isFail a2 = true →
       isFail a3 = true →
       (makeRequest endpoint (a0 :: a1 :: a2 :: a3 :: rest) 0).1 =
         Except.error (toErr a3) ∧
       sleepsOf (makeRequest endpoint (a0 :: a1 :: a2 :: a3 :: rest) 0).2 =
         [1, 2, 4]) := by
  constructor
  · intro endpoint k fails s b rest hk hlen hall hs
    have h := makeRequest_fails_then_ok endpoint fails 0 s b rest
      (by omega) hall hs
    refine ⟨h.1, ?_⟩
    rw [h.2, hlen]
    simp
  · intro endpoint a0 a1 a2 a3 rest h0 h1 h2 h3
    have e3 : makeRequest endpoint (a3 :: rest) 3 =
        (Except.error (toErr a3), [Event.httpAttempt endpoint]) :=
      makeRequest_fail_last endpoint a3 rest h3
    have s2 : makeRequest endpoint (a2 :: a3 :: rest) 2 =
        ((makeRequest endpoint (a3 :: rest) 3).1,
         Event.httpAttempt endpoint :: Event.sleep (2 ^ 2) ::
           (makeRequest endpoint (a3 :: rest) 3).2) :=
      makeRequest_fail_step endpoint a2 (a3 :: rest) 2 h2
        (by simp [MAX_RETRIES])
    have s1 : makeRequest endpoint (a1 :: a2 :: a3 :: rest) 1 =
        ((makeRequest endpoint (a2 :: a3 :: rest) 2).1,
         Event.httpAttempt endpoint :: Event.sleep (2 ^ 1) ::
           (makeRequest endpoint (a2 :: a3 :: rest) 2).2) :=
      makeRequest_fail_step endpoint a1 (a2 :: a3 :: rest) 1 h1
        (by simp [MAX_RETRIES])
    have s0 : makeRequest endpoint (a0 :: a1 :: a2 :: a3 :: rest) 0 =
        ((makeRequest endpoint (a1 :: a2 :: a3 :: rest) 1).1,
         Event.httpAttempt endpoint :: Event.sleep (2 ^ 0) ::
           (makeRequest endpoint (a1 :: a2 :: a3 :: rest) 1).2) :=
      makeRequest_fail_step endpoint a0 (a1 :: a2 :: a3 :: rest) 0 h0
        (by simp [MAX_RETRIES])
    rw [s0, s1, s2, e3]
    simp [sleepsOf]

/-- Witness for claim C5: one network failure then a 200 response returns
the response after a single one-second sleep, and four network failures
propagate a network error after sleeps of 1, 2 and 4 seconds. -/
theorem claim5_retry_witness :
    ((makeRequest "/x" ([Attempt.netError] ++ Attempt.resp 200 body0 :: []) 0).1
         = Except.ok (200, body0) ∧
     sleepsOf (makeRequest "/x"
         ([Attempt.netError] ++ Attempt.resp 200 body0 :: []) 0).2 =
       (List.range 1).map (fun i => 2 ^ i)) ∧
    ((makeRequest "/x" (Attempt.netError :: Attempt.netError ::
         Attempt.netError :: Attempt.netError ::
         ([] : List (Attempt SummaryBody))) 0).1 =
       Except.error (toErr (Attempt.netError : Attempt SummaryBody)) ∧
     sleepsOf (makeRequest "/x" (Attempt.netError :: Attempt.netError ::
         Attempt.netError :: Attempt.netError ::
         ([] : List (Attempt SummaryBody))) 0).2 = [1, 2, 4]) :=
  ⟨claim5_retry.1 "/x" 1 [Attempt.netError] 200 body0 [] (by decide)
     (by decide) (by decide) (by decide),
   claim5_retry.2 "/x" Attempt.netError Attempt.netError Attempt.netError
     Attempt.netError [] (by decide) (by decide) (by decide) (by decide)⟩

/-- Claim C1: with the summarize POST answered 429 then 200, the 429 is
raised by `raise_for_status` inside `_make_request` and retried there with
a one-second exponential backoff, after which `get_issue_summary` receives
the 200 and returns the summary.  The `status_code == 429` branch of
`get_issue_summary` never runs: the only sleep of the whole call is the
one-second backoff — not the claimed full sixty-second rate window — and
the request counter ends at one instead of being reset to zero. -/
theorem claim1_429_handling :
    (getIssueSummary 2 "42" st0 c1post exnOracle exnOracle).1 =
        ("What happened", "Root cause") ∧
    sleepsOf (getIssueSummary 2 "42" st0 c1post exnOracle exnOracle).2.2 =
        [1] ∧
    (getIssueSummary 2 "42" st0 c1post exnOracle exnOracle).2.1.summaryCount
        = 1 := by
  decide

/-- No call of `_translate_with_ai` ever runs
`_check_translation_rate_limit`: its trace holds no acquisition event. -/
theorem translateWithAi_no_acquire (text : String) (oracle : List TAttempt) :
    countAcquires (translateWithAi text oracle).2 = 0 := by
  induction oracle with
  | nil =>
    by_cases h : text = "" ∨ text = NOT_AVAILABLE <;>
      simp [translateWithAi, h, countAcquires]
  | cons a rest ih =>
    rcases a with _ | ⟨s, choices⟩
    · by_cases h : text = "" ∨ text = NOT_AVAILABLE <;>
        simp [translateWithAi, h, countAcquires]
    · by_cases h : text = "" ∨ text = NOT_AVAILABLE
      · simp [translateWithAi, h, countAcquires]
      · by_cases hs200 : s = 200
        · subst hs200
          rcases choices with _ | ⟨_ | ⟨c, cs⟩⟩ <;>
            simp [translateWithAi, h, countAcquires]
        · by_cases hs429 : s = 429
          · subst hs429
            simp [translateWithAi, h, hs200, countAcquires] at ih ⊢
            exact ih
          · simp [translateWithAi, h, hs200, hs429, countAcquires]

/-- Claim C2: no translation request is preceded by an acquisition of the
translation rate-limiter category — `_translate_with_ai` never runs
`_check_translation_rate_limit` at all — so nothing bounds the request
rate: 51 consecutive calls issue 51 POSTs with zero seconds slept and
zero limiter acquisitions, exceeding the 50-per-window limit. -/
theorem claim2_no_rate_limit :
    (∀ (text : String) (oracle : List TAttempt),
       countAcquires (translateWithAi text oracle).2 = 0) ∧
    (reqsOf burstEvents).length = 51 ∧
    translationRateLimit < (reqsOf burstEvents).length ∧
    sleepsOf burstEvents = [] ∧
    countAcquires burstEvents = 0 :=
  ⟨translateWithAi_no_acquire, by decide, by decide, by decide, by decide⟩

/-- A sentinel argument makes `_translate_with_ai` return the sentinel at
once: the trace holds the invocation marker only, no request event. -/
theorem translateWithAi_sentinel (oracle : List TAttempt) :
    translateWithAi NOT_AVAILABLE oracle =
      (NOT_AVAILABLE, [Event.translateCall NOT_AVAILABLE]) := by
  rcases oracle with _ | ⟨_ | ⟨s, choices⟩, rest⟩ <;> simp [translateWithAi]

/-- Every event of a `_translate_with_ai` trace is the invocation marker
of its own argument, a request for that argument, or a ten-second sleep. -/
theorem mem_translateWithAi_events (text : String) (oracle : List TAttempt)
    (e : Event) (he : e ∈ (translateWithAi text oracle).2) :
    e = Event.translateCall text ∨ e = Event.translateReq text ∨
      e = Event.sleep 10 := by
  induction oracle with
  | nil =>
    by_cases h : text = "" ∨ text = NOT_AVAILABLE <;>
      simp [translateWithAi, h] at he <;> tauto
  | cons a rest ih =>
    rcases a with _ | ⟨s, choices⟩
    · by_cases h : text = "" ∨ text = NOT_AVAILABLE <;>
        simp [translateWithAi, h] at he <;> tauto
    · by_cases h : text = "" ∨ text = NOT_AVAILABLE
      · simp [translateWithAi, h] at he
        tauto
      · by_cases hs200 : s = 200
        · subst hs200
          rcases choices with _ | ⟨_ | ⟨c, cs⟩⟩ <;>
            simp [translateWithAi, h] at he <;> tauto
        · by_cases hs429 : s = 429
          · subst hs429
            simp [translateWithAi, h, hs200] at he
            rcases he with he | he | he | he
            · tauto
            · tauto
            · tauto
            · exact ih he
          · simp [translateWithAi, h, hs200, hs429] at he
            tauto

/-- Every event of a `_check_rate_limit` trace is a sleep. -/
theorem mem_checkRateLimit_events (now count last : Nat) (e : Event)
    (he : e ∈ (checkRateLimit now count last).2) :
    ∃ w, e = Event.sleep w := by
  simp only [checkRateLimit] at he
  split_ifs at he <;> simp at he
  all_goals exact ⟨_, he⟩

/-- Every event of a `_make_request` trace is an attempt on its endpoint
or a backoff sleep. -/
theorem mem_makeRequest_events {α : Type} (endpoint : String)
    (attempts : List (Attempt α)) (rc : Nat) (e : Event)
    (he : e ∈ (makeRequest endpoint attempts rc).2) :
    e = Event.httpAttempt endpoint ∨ ∃ w, e = Event.sleep w := by
  induction attempts generalizing rc with
  | nil =>
    simp [makeRequest, exhaustEvents] at he
    rcases he with ⟨i, hi, he | he⟩ | he
    · exact Or.inl he
    · exact Or.inr ⟨_, he⟩
    · exact Or.inl he
  | cons a rest ih =>
    rcases a with _ | ⟨s, b⟩
    · by_cases hrc : rc < MAX_RETRIES
      · simp [makeRequest, hrc] at he
        rcases he with he | he | he
        · exact Or.inl he
        · exact Or.inr ⟨_, he⟩
        · exact ih (rc + 1) he
      · simp [makeRequest, hrc] at he
        exact Or.inl he
    · by_cases h400 : 400 ≤ s
      · by_cases hrc : rc < MAX_RETRIES
        · simp [makeRequest, h400, hrc] at he
          rcases he with he | he | he
          · exact Or.inl he
          · exact Or.inr ⟨_, he⟩
          · exact ih (rc + 1) he
        · simp [makeRequest, h400, hrc] at he
          exact Or.inl he
      · simp [makeRequest, h400] at he
        exact Or.inl he

/-- The rate-limit check never moves the clock backwards. -/
theorem checkRateLimit_now_ge (now count last : Nat) :
    now ≤ (checkRateLimit now count last).1.1 := by
  simp only [checkRateLimit]
  split_ifs <;> simp

/-- On a cache miss with a failing transport call, `get_issue_summary`
returns the sentinel pair, keeps the cache, moves the clock forward only,
and traces exactly the invocation marker, the rate-limit sleeps and the
transport events. -/
theorem getIssueSummary_miss_error (fuel : Nat) (issueId : String)
    (st : SState) (post : List (Attempt SummaryBody)) (trW trP : List TAttempt)
    (hmiss : cacheHit st issueId = none) (err : ReqError)
    (herr : (makeRequest (summarizeEndpoint issueId) post 0).1 =
      Except.error err) :
    (getIssueSummary (fuel + 1) issueId st post trW trP).1 =
        (NOT_AVAILABLE, NOT_AVAILABLE) ∧
    (getIssueSummary (fuel + 1) issueId st post trW trP).2.1.cache =
        st.cache ∧
    st.now ≤ (getIssueSummary (fuel + 1) issueId st post trW trP).2.1.now ∧
    (getIssueSummary (fuel + 1) issueId st post trW trP).2.2 =
      Event.summaryCall issueId ::
        (checkRateLimit st.now st.summaryCount st.lastSummary).2 ++
        (makeRequest (summarizeEndpoint issueId) post 0).2 := by
  refine ⟨?_, ?_, ?_, ?_⟩ <;> simp [getIssueSummary, hmiss, herr]
  exact le_trans (checkRateLimit_now_ge st.now st.summaryCount st.lastSummary)
    (Nat.le_add_right _ _)

/-- On a cache miss with a transport call returning a non-200 (and, since
it survived `raise_for_status`, sub-400) status, `get_issue_summary`
returns the sentinel pair, keeps the cache, moves the clock forward only,
and traces exactly the invocation marker, the rate-limit sleeps and the
transport events. -/
theorem getIssueSummary_miss_non200 (fuel : Nat) (issueId : String)
    (st : SState) (post : List (Attempt SummaryBody)) (trW trP : List TAttempt)
    (hmiss : cacheHit st issueId = none) (s : Nat) (b : SummaryBody)
    (hok : (makeRequest (summarizeEndpoint issueId) post 0).1 =
      Except.ok (s, b)) (hs200 : s ≠ 200) :
    (getIssueSummary (fuel + 1) issueId st post trW trP).1 =
        (NOT_AVAILABLE, NOT_AVAILABLE) ∧
    (getIssueSummary (fuel + 1) issueId st post trW trP).2.1.cache =
        st.cache ∧
    st.now ≤ (getIssueSummary (fuel + 1) issueId st post trW trP).2.1.now ∧
    (getIssueSummary (fuel + 1) issueId st post trW trP).2.2 =
      Event.summaryCall issueId ::
        (checkRateLimit st.now st.summaryCount st.lastSummary).2 ++
        (makeRequest (summarizeEndpoint issueId) post 0).2 := by
  have hs429 : s ≠ 429 := by
    have := makeRequest_ok_status_lt (summarizeEndpoint issueId) 0 post s b hok
    omega
  refine ⟨?_, ?_, ?_, ?_⟩ <;> simp [getIssueSummary, hmiss, hok, hs429, hs200]
  exact le_trans (checkRateLimit_now_ge st.now st.summaryCount st.lastSummary)
    (Nat.le_add_right _ _)

/-- On a cache miss, `get_issue_summary` always reaches the summarize
POST: the trace holds a physical attempt on the summarize endpoint. -/
theorem getIssueSummary_miss_fetches (fuel : Nat) (issueId : String)
    (st : SState) (post : List (Attempt SummaryBody)) (trW trP : List TAttempt)
    (hmiss : cacheHit st issueId = none) :
    Event.httpAttempt (summarizeEndpoint issueId) ∈
      (getIssueSummary (fuel + 1) issueId st post trW trP).2.2 := by
  rcases hmr : (makeRequest (summarizeEndpoint issueId) post 0).1
    with err | ⟨s, b⟩
  · simp [getIssueSummary, hmiss, hmr, makeRequest_attempt_mem]
  · have hs429 : s ≠ 429 := by
      have := makeRequest_ok_status_lt (summarizeEndpoint issueId) 0 post s b
        hmr
      omega
    by_cases hs200 : s = 200
    · subst hs200
      simp [getIssueSummary, hmiss, hmr, makeRequest_attempt_mem]
    · simp [getIssueSummary, hmiss, hmr, hs429, hs200,
        makeRequest_attempt_mem]

/-- No `_translate_with_ai` invocation inside `get_issue_summary` receives
the sentinel: both call sites are guarded. -/
theorem getIssueSummary_calls_ne_sentinel (fuel : Nat) (issueId : String)
    (st : SState) (post : List (Attempt SummaryBody)) (trW trP : List TAttempt)
    (t : String)
    (ht : Event.translateCall t ∈
      (getIssueSummary fuel issueId st post trW trP).2.2) :
    t ≠ NOT_AVAILABLE := by
  match fuel with
  | 0 => simp [getIssueSummary] at ht
  | fuel + 1 =>
    rcases hh : cacheHit st issueId with _ | e
    · rcases hmr : (makeRequest (summarizeEndpoint issueId) post 0).1
        with err | ⟨s, b⟩
      · simp [getIssueSummary, hh, hmr] at ht
        rcases ht with ht | ht
        · rcases mem_checkRateLimit_events _ _ _ _ ht with ⟨w, hw⟩
          simp at hw
        · rcases mem_makeRequest_events _ _ _ _ ht with hw | ⟨w, hw⟩ <;>
            simp at hw
      · have hs429 : s ≠ 429 := by
          have := makeRequest_ok_status_lt (summarizeEndpoint issueId) 0 post
            s b hmr
          omega
        by_cases hs200 : s = 200
        · subst hs200
          by_cases hww : orNA (stripStars b.whatsWrong) ≠ NOT_AVAILABLE
          · by_cases hpc : orNA (stripStars b.possibleCause) ≠ NOT_AVAILABLE
            · simp [getIssueSummary, hh, hmr, hww, hpc] at ht
              rcases ht with ht | ht | ht | ht
              · rcases mem_checkRateLimit_events _ _ _ _ ht with ⟨w, hw⟩
                simp at hw
              · rcases mem_makeRequest_events _ _ _ _ ht with hw | ⟨w, hw⟩ <;>
                  simp at hw
              · rcases mem_translateWithAi_events _ _ _ ht
                  with hw | hw | hw <;> simp at hw
                subst hw
                exact hww
              · rcases mem_translateWithAi_events _ _ _ ht
                  with hw | hw | hw <;> simp at hw
                subst hw
                exact hpc
            · simp [getIssueSummary, hh, hmr, hww, hpc] at ht
              rcases ht with ht | ht | ht
              · rcases mem_checkRateLimit_events _ _ _ _ ht with ⟨w, hw⟩
                simp at hw
              · rcases mem_makeRequest_events _ _ _ _ ht with hw | ⟨w, hw⟩ <;>
                  simp at hw
              · rcases mem_translateWithAi_events _ _ _ ht
                  with hw | hw | hw <;> simp at hw
                subst hw
                exact hww
          · by_cases hpc : orNA (stripStars b.possibleCause) ≠ NOT_AVAILABLE
            · simp [getIssueSummary, hh, hmr, hww, hpc] at ht
              rcases ht with ht | ht | ht
              · rcases mem_checkRateLimit_events _ _ _ _ ht with ⟨w, hw⟩
                simp at hw
              · rcases mem_makeRequest_events _ _ _ _ ht with hw | ⟨w, hw⟩ <;>
                  simp at hw
              · rcases mem_translateWithAi_events _ _ _ ht
                  with hw | hw | hw <;> simp at hw
                subst hw
                exact hpc
            · simp [getIssueSummary, hh, hmr, hww, hpc] at ht
              rcases ht with ht | ht
              · rcases mem_checkRateLimit_events _ _ _ _ ht with ⟨w, hw⟩
                simp at hw
              · rcases mem_makeRequest_events _ _ _ _ ht with hw | ⟨w, hw⟩ <;>
                  simp at hw
        · simp [getIssueSummary, hh, hmr, hs429, hs200] at ht
          rcases ht with ht | ht
          · rcases mem_checkRateLimit_events _ _ _ _ ht with ⟨w, hw⟩
            simp at hw
          · rcases mem_makeRequest_events _ _ _ _ ht with hw | ⟨w, hw⟩ <;>
              simp at hw
    · simp [getIssueSummary, hh] at ht

/-- No `_translate_with_ai` invocation inside the per-issue enrichment of
`create_issues_dataframe` receives the sentinel: the forced-translation
call sites are guarded too. -/
theorem processIssue_calls_ne_sentinel (fuel : Nat) (issue : Issue)
    (st : SState) (oracles : String → IssueOracle) (t : String)
    (ht : Event.translateCall t ∈ (processIssue fuel issue st oracles).2.2) :
    t ≠ NOT_AVAILABLE := by
  simp only [processIssue] at ht
  set g := getIssueSummary fuel issue.id st (oracles issue.id).post
    (oracles issue.id).trW (oracles issue.id).trP with hg
  by_cases hA : g.1.1 ≠ NOT_AVAILABLE ∧ ¬ isPortuguese g.1.1
  · by_cases hB : g.1.2 ≠ NOT_AVAILABLE ∧ ¬ isPortuguese g.1.2
    · rw [if_pos hA, if_pos hB] at ht
      simp at ht
      rcases ht with ht | ht | ht
      · exact getIssueSummary_calls_ne_sentinel _ _ _ _ _ _ _ ht
      · rcases mem_translateWithAi_events _ _ _ ht with hw | hw | hw <;>
          simp at hw
        subst hw
        exact hA.1
      · rcases mem_translateWithAi_events _ _ _ ht with hw | hw | hw <;>
          simp at hw
        subst hw
        exact hB.1
    · rw [if_pos hA, if_neg hB] at ht
      simp at ht
      rcases ht with ht | ht
      · exact getIssueSummary_calls_ne_sentinel _ _ _ _ _ _ _ ht
      · rcases mem_translateWithAi_events _ _ _ ht with hw | hw | hw <;>
          simp at hw
        subst hw
        exact hA.1
  · by_cases hB : g.1.2 ≠ NOT_AVAILABLE ∧ ¬ isPortuguese g.1.2
    · rw [if_neg hA, if_pos hB] at ht
      simp at ht
      rcases ht with ht | ht
      · exact getIssueSummary_calls_ne_sentinel _ _ _ _ _ _ _ ht
      · rcases mem_translateWithAi_events _ _ _ ht with hw | hw | hw <;>
          simp at hw
        subst hw
        exact hB.1
    · rw [if_neg hA, if_neg hB] at ht
      simp at ht
      exact getIssueSummary_calls_ne_sentinel _ _ _ _ _ _ _ ht

/-- The guard of `processIssue_calls_ne_sentinel`, lifted to one batch. -/
theorem processSeq_calls_ne_sentinel (fuel : Nat) :
    ∀ (batch : List Issue) (st : SState) (oracles : String → IssueOracle)
      (t : String),
      Event.translateCall t ∈ (processSeq fuel batch st oracles).2.2 →
      t ≠ NOT_AVAILABLE := by
  intro batch
  induction batch with
  | nil =>
    intro st oracles t ht
    simp [processSeq] at ht
  | cons issue rest ih =>
    intro st oracles t ht
    simp [processSeq] at ht
    rcases ht with ht | ht
    · exact processIssue_calls_ne_sentinel _ _ _ _ _ ht
    · exact ih _ _ _ ht

/-- The guard of `processIssue_calls_ne_sentinel`, lifted to the whole
batch loop. -/
theorem batchesGoAux_calls_ne_sentinel (fuel : Nat) :
    ∀ (tick : Nat) (issues : List Issue) (st : SState)
      (oracles : String → IssueOracle) (t : String),
      Event.translateCall t ∈ (batchesGoAux fuel tick issues st oracles).2.2 →
      t ≠ NOT_AVAILABLE := by
  intro tick
  induction tick with
  | zero =>
    intro issues st oracles t ht
    rcases issues with _ | ⟨i, more⟩ <;> simp [batchesGoAux] at ht
  | succ tk ih =>
    intro issues st oracles t ht
    rcases issues with _ | ⟨i, more⟩
    · simp [batchesGoAux] at ht
    · rcases hrest : more.drop 4 with _ | ⟨j, rest2⟩
      · simp [batchesGoAux, hrest] at ht
        exact processSeq_calls_ne_sentinel _ _ _ _ _ ht
      · simp [batchesGoAux, hrest] at ht
        rcases ht with ht | ht
        · exact processSeq_calls_ne_sentinel _ _ _ _ _ ht
        · exact ih _ _ _ _ ht

/-- Claim C7: the translator is never invoked with the sentinel.  First,
`_translate_with_ai` called on the sentinel returns it immediately and
issues no request; second and third, every `_translate_with_ai` invocation
reached from `get_issue_summary` or from `create_issues_dataframe` has a
non-sentinel argument — every call site guards against the sentinel. -/
theorem claim7_sentinel_guard :
    (∀ (oracle : List TAttempt),
       translateWithAi NOT_AVAILABLE oracle =
         (NOT_AVAILABLE, [Event.translateCall NOT_AVAILABLE])) ∧
    (∀ (fuel : Nat) (issueId : String) (st : SState)
       (post : List (Attempt SummaryBody)) (trW trP : List TAttempt)
       (t : String),
       Event.translateCall t ∈
         (getIssueSummary fuel issueId st post trW trP).2.2 →
       t ≠ NOT_AVAILABLE) ∧
    (∀ (fuel : Nat) (issues : List Issue) (st : SState)
       (oracles : String → IssueOracle) (t : String),
       Event.translateCall t ∈
         (createIssuesDataframe fuel issues st oracles).2.2 →
       t ≠ NOT_AVAILABLE) := by
  refine ⟨translateWithAi_sentinel, getIssueSummary_calls_ne_sentinel, ?_⟩
  intro fuel issues st oracles t ht
  rcases issues with _ | ⟨i, more⟩
  · simp [createIssuesDataframe] at ht
  · simp [createIssuesDataframe, batchesGo] at ht
    exact batchesGoAux_calls_ne_sentinel fuel _ _ _ _ _ ht

/-- Witness for claim C7: a concrete run whose trace holds a translator
invocation, whose argument the theorem proves distinct from the
sentinel. -/
theorem claim7_witness : "What happened" ≠ NOT_AVAILABLE :=
  claim7_sentinel_guard.2.1 2 "42" st0 c1post exnOracle exnOracle
    "What happened" (by decide)

/-- Claim C10: on a cache miss whose summarize fetch fails (transport
error after retries, or a non-200 status), `get_issue_summary` returns the
sentinel pair, writes nothing under the issue id, never flushes the cache
file, and leaves the state a cache miss, so any later call for the same
id reaches the summarize POST again instead of seeing a cached
sentinel. -/
theorem claim10_failure_no_cache (fuel : Nat) (issueId : String)
    (st : SState) (post : List (Attempt SummaryBody)) (trW trP : List TAttempt)
    (hmiss : cacheHit st issueId = none)
    (hfail :
      (∃ err, (makeRequest (summarizeEndpoint issueId) post 0).1 =
        Except.error err) ∨
      (∃ s b, (makeRequest (summarizeEndpoint issueId) post 0).1 =
        Except.ok (s, b) ∧ s ≠ 200)) :
    (getIssueSummary (fuel + 1) issueId st post trW trP).1 =
        (NOT_AVAILABLE, NOT_AVAILABLE) ∧
    (getIssueSummary (fuel + 1) issueId st post trW trP).2.1.cache =
        st.cache ∧
    Event.cacheSave ∉
        (getIssueSummary (fuel + 1) issueId st post trW trP).2.2 ∧
    cacheHit (getIssueSummary (fuel + 1) issueId st post trW trP).2.1 issueId
        = none ∧
    (∀ (fuel2 : Nat) (post2 : List (Attempt SummaryBody))
       (trW2 trP2 : List TAttempt),
       Event.httpAttempt (summarizeEndpoint issueId) ∈
         (getIssueSummary (fuel2 + 1) issueId
           (getIssueSummary (fuel + 1) issueId st post trW trP).2.1
           post2 trW2 trP2).2.2) := by
  have key :
      (getIssueSummary (fuel + 1) issueId st post trW trP).1 =
          (NOT_AVAILABLE, NOT_AVAILABLE) ∧
      (getIssueSummary (fuel + 1) issueId st post trW trP).2.1.cache =
          st.cache ∧
      st.now ≤ (getIssueSummary (fuel + 1) issueId st post trW trP).2.1.now ∧
      (getIssueSummary (fuel + 1) issueId st post trW trP).2.2 =
        Event.summaryCall issueId ::
          (checkRateLimit st.now st.summaryCount st.lastSummary).2 ++
          (makeRequest (summarizeEndpoint issueId) post 0).2 := by
    rcases hfail with ⟨err, herr⟩ | ⟨s, b, hok, hs⟩
    · exact getIssueSummary_miss_error fuel issueId st post trW trP hmiss err
        herr
    · exact getIssueSummary_miss_non200 fuel issueId st post trW trP hmiss
        s b hok hs
  obtain ⟨h1, h2, h3, h4⟩ := key
  have hmiss2 : cacheHit
      (getIssueSummary (fuel + 1) issueId st post trW trP).2.1 issueId =
      none := by
    unfold cacheHit at hmiss ⊢
    rw [h2]
    rcases hl : st.cache.lookup issueId with _ | e
    · simp
    · simp only [hl] at hmiss ⊢
      split at hmiss
      · exact absurd hmiss (by simp)
      · have hexp : ¬ st.now - e.timestamp < CACHE_EXPIRY := by assumption
        have : ¬ (getIssueSummary (fuel + 1) issueId st post trW trP).2.1.now
            - e.timestamp < CACHE_EXPIRY := by omega
        simp [this]
  refine ⟨h1, h2, ?_, hmiss2, ?_⟩
  · rw [h4]
    intro hmem
    simp at hmem
    rcases hmem with hmem | hmem
    · rcases mem_checkRateLimit_events _ _ _ _ hmem with ⟨w, hw⟩
      simp at hw
    · rcases mem_makeRequest_events _ _ _ _ hmem with hw | ⟨w, hw⟩ <;>
        simp at hw
  · intro fuel2 post2 trW2 trP2
    exact getIssueSummary_miss_fetches fuel2 issueId _ post2 trW2 trP2 hmiss2

/-- Witness for claim C10: a fresh state and an oracle whose every attempt
fails give the sentinel pair with the cache untouched. -/
theorem claim10_witness :
    (getIssueSummary 1 "9" st0 [] [] []).1 =
        (NOT_AVAILABLE, NOT_AVAILABLE) ∧
    (getIssueSummary 1 "9" st0 [] [] []).2.1.cache = st0.cache ∧
    Event.cacheSave ∉ (getIssueSummary 1 "9" st0 [] [] []).2.2 ∧
    cacheHit (getIssueSummary 1 "9" st0 [] [] []).2.1 "9" = none ∧
    (∀ (fuel2 : Nat) (post2 : List (Attempt SummaryBody))
       (trW2 trP2 : List TAttempt),
       Event.httpAttempt (summarizeEndpoint "9") ∈
         (getIssueSummary (fuel2 + 1) "9"
           (getIssueSummary 1 "9" st0 [] [] []).2.1 post2 trW2 trP2).2.2) :=
  claim10_failure_no_cache 0 "9" st0 [] [] [] (by decide)
    (Or.inl ⟨ReqError.network, by rfl⟩)

/-- One step of `_translate_with_ai` on a non-429 attempt: exactly one
request is issued and the result is `tOutcome`. -/
theorem translateWithAi_non429 (text : String) (a : TAttempt)
    (rest : List TAttempt) (h1 : text ≠ "") (h2 : text ≠ NOT_AVAILABLE)
    (ha : is429 a = false) :
    translateWithAi text (a :: rest) =
      (tOutcome text a,
       [Event.translateCall text, Event.translateReq text]) := by
  rcases a with _ | ⟨s, choices⟩
  · simp [translateWithAi, h1, h2, tOutcome]
  · simp [is429] at ha
    by_cases hs200 : s = 200
    · subst hs200
      rcases choices with _ | ⟨_ | ⟨c, cs⟩⟩ <;>
        simp [translateWithAi, h1, h2, tOutcome]
    · simp [translateWithAi, h1, h2, tOutcome, hs200, ha]

/-- One step of `_translate_with_ai` on a 429 attempt: one request, a
ten-second sleep, and a full recursive retry on the rest of the oracle. -/
theorem translateWithAi_429_step (text : String) (p : TAttempt)
    (rest : List TAttempt) (h1 : text ≠ "") (h2 : text ≠ NOT_AVAILABLE)
    (hp : is429 p = true) :
    translateWithAi text (p :: rest) =
      ((translateWithAi text rest).1,
       Event.translateCall text :: Event.translateReq text ::
         Event.sleep 10 :: (translateWithAi text rest).2) := by
  rcases p with _ | ⟨s, choices⟩
  · simp [is429] at hp
  · simp [is429] at hp
    subst hp
    simp [translateWithAi, h1, h2]

/-- Claim C6 counterexample: with the translation endpoint answering 429,
429, then 200, `_translate_with_ai` issues three POST requests, refuting
the claimed single retry (which would allow at most two), sleeping ten
seconds before each of the two retries. -/
theorem claim6_counterexample :
    reqsOf (translateWithAi "Hello" c6oracle).2 =
        ["Hello", "Hello", "Hello"] ∧
    ¬ (reqsOf (translateWithAi "Hello" c6oracle).2).length ≤ 2 ∧
    sleepsOf (translateWithAi "Hello" c6oracle).2 = [10, 10] ∧
    (translateWithAi "Hello" c6oracle).1 = "Olá" := by
  decide

/-- Claim C6 amended: on each 429 response `_translate_with_ai` sleeps a
fixed ten seconds and retries the same call recursively — one retry per
429 response, unbounded in total, not exactly once — until a non-429
outcome; on a 200 response the stripped translation is returned, and on
any other failure or non-200 status the original untranslated text is
returned. -/
theorem claim6_amended (text : String) (pre : List TAttempt) (a : TAttempt)
    (rest : List TAttempt) (h1 : text ≠ "") (h2 : text ≠ NOT_AVAILABLE)
    (hpre : ∀ x ∈ pre, is429 x = true) (ha : is429 a = false) :
    (translateWithAi text (pre ++ a :: rest)).1 = tOutcome text a ∧
    sleepsOf (translateWithAi text (pre ++ a :: rest)).2 =
      List.replicate pre.length 10 ∧
    reqsOf (translateWithAi text (pre ++ a :: rest)).2 =
      List.replicate (pre.length + 1) text := by
  induction pre with
  | nil =>
    rw [List.nil_append, translateWithAi_non429 text a rest h1 h2 ha]
    simp [sleepsOf, reqsOf]
  | cons p pre ih =>
    have hp : is429 p = true := hpre p (by simp)
    have ihh := ih (fun x hx => hpre x (by simp [hx]))
    rw [List.cons_append, translateWithAi_429_step text p _ h1 h2 hp]
    refine ⟨ihh.1, ?_, ?_⟩
    · simp only [sleepsOf, List.filterMap_cons] at ihh ⊢
      rw [ihh.2.1]
      simp [List.replicate_succ]
    · simp only [reqsOf, List.filterMap_cons] at ihh ⊢
      rw [ihh.2.2]
      simp [List.replicate_succ]

/-- Witness for the amended claim C6 at a concrete input: one 429 then a
200 response gives one ten-second sleep, two requests, and the
translation. -/
theorem claim6_amended_witness :
    (translateWithAi "Hello" c6oracle).1 =
        tOutcome "Hello" (TAttempt.resp 200 (some ["Olá"])) ∧
    sleepsOf (translateWithAi "Hello" c6oracle).2 =
      List.replicate 2 10 ∧
    reqsOf (translateWithAi "Hello" c6oracle).2 =
      List.replicate 3 "Hello" := by
  have h := claim6_amended "Hello"
    [TAttempt.resp 429 none, TAttempt.resp 429 none]
    (TAttempt.resp 200 (some ["Olá"])) [] (by decide) (by decide)
    (by decide) (by decide)
  simpa [c6oracle] using h

/-- Claim C4: loading a persisted cache file keeps exactly the entries
whose age `now - timestamp` is strictly below the expiry duration and
excludes all older entries. -/
theorem claim4_load_filter (now : Nat) (fileData : List (String × CacheEntry))
    (k : String) (e : CacheEntry) :
    (k, e) ∈ loadSummaryCache true now fileData ↔
      (k, e) ∈ fileData ∧ now - e.timestamp < CACHE_EXPIRY := by
  simp [loadSummaryCache, List.mem_filter]

/-- Every dataframe produced by `create_issues_dataframe` is sorted by
occurrence count descending, ties broken by affected users descending. -/
theorem createIssuesDataframe_sorted (fuel : Nat) (issues : List Issue)
    (st : SState) (oracles : String → IssueOracle) :
    List.Sorted rowKeyGE (createIssuesDataframe fuel issues st oracles).1 := by
  rcases issues with _ | ⟨i, more⟩
  · simp [createIssuesDataframe]
  · simp only [createIssuesDataframe]
    exact List.sorted_insertionSort rowKeyGE _

/-- Claim C8: every sheet of every report is sorted by occurrence count
descending with ties broken by affected-user count descending; and in the
concrete two-issue scenario — server-reported priorities A high and B low,
which is exactly the priority cache the bulk query builds — the generated
report places issue A in the high-priority sheet and issue B in the
low-priority sheet. -/
theorem claim8_report_sheets :
    (∀ (fuel : Nat) (st : SState)
       (qErr qHigh qLow qOther : List (Attempt (List Issue)))
       (oracles : String → IssueOracle),
       reportSorted
         (generateMultiSheetReport fuel st qErr qHigh qLow qOther
           oracles).1) ∧
    (getAllIssuesWithPriorities [Attempt.resp 200 [issueA, issueB]]
        []).2.1.lookup "A" = some "high" ∧
    (getAllIssuesWithPriorities [Attempt.resp 200 [issueA, issueB]]
        []).2.1.lookup "B" = some "low" ∧
    sheetTitles c8run Report.altaPrioridade = ["A"] ∧
    sheetTitles c8run Report.baixaPrioridade = ["B"] := by
  refine ⟨?_, by decide, by decide, by decide, by decide⟩
  intro fuel st q1 q2 q3 q4 oracles
  simp only [generateMultiSheetReport]
  split
  · simp [reportSorted]
  · split
    · simp [reportSorted]
    · split
      · simp [reportSorted]
      · split
        · simp [reportSorted]
        · simp only [reportSorted]
          exact ⟨createIssuesDataframe_sorted _ _ _ _,
            createIssuesDataframe_sorted _ _ _ _,
            createIssuesDataframe_sorted _ _ _ _,
            createIssuesDataframe_sorted _ _ _ _⟩

/-- Claim C9: on six cached issues, `create_issues_dataframe` enriches the
issues one at a time, strictly sequentially and in list order, in two
slices of five and one — the whole trace is one enrichment marker per
issue with a single fixed two-second pause between the two batches, and no
concurrent dispatch of any kind (the thread-pool helper
`_process_summary_batch` is never invoked by any caller in the source). -/
theorem claim9_sequential_batches :
    (createIssuesDataframe 1 issues6 st9 (fun _ => emptyOracle)).2.2 =
      [Event.summaryCall "1", Event.summaryCall "2", Event.summaryCall "3",
       Event.summaryCall "4", Event.summaryCall "5", Event.sleep 2,
       Event.summaryCall "6"] := by
  decide

end SentryReports
